import Mathlib

/-!
# Verification of the Puffing Language execution harness

A shallow embedding of `backend/services.py` (class `PuffingExecutor`:
`execute` and `validate_syntax`, plus the `time_limit` context manager) and of
the call site in `backend/app.py` (`execute_code` over `CodeRequest`).

The lexer/parser/interpreter pipeline is an external black box: its behaviour
on a given source string is represented by a `RunEvent` (how and when the
pipeline run terminates, if at all) together with the text the program wrote
to the output sink.  `execute` is embedded as a total Lean function of that
behaviour; a return value of `none` models a call of `execute` that never
returns (possible on Windows, where `time_limit` installs no alarm).
-/

namespace Puffing

/-- The value of `sys.platform` as far as `time_limit` distinguishes it: the code branches
only on `sys.platform != 'win32'`. -/
inductive Platform
  | win32
  | posix
deriving Repr, DecidableEq

/-- Behaviour of one pipeline run (`tokenize` → `parse` → `run`) on a given
source, as observed by the harness: the run either completes normally at some
wall-clock offset, raises a `PuffingError` (the interpreter's own error root
class), raises some other exception (class name and message recorded), or
never terminates.  Times are in seconds from the start of the run. -/
inductive RunEvent
  | completes (duration : ℚ)
  | puffingError (clsName msg : String) (t : ℚ)
  | otherError (clsName msg : String) (t : ℚ)
  | diverges
deriving Repr, DecidableEq

/-- Time at which the run event fires (0 for a divergent run, which has no
event). -/
def RunEvent.time : RunEvent → ℚ
  | .completes d => d
  | .puffingError _ _ t => t
  | .otherError _ _ t => t
  | .diverges => 0

/-- What the `try` block of `execute` observes once the pipeline runs under
`with time_limit(timeout)`. -/
inductive RaceOutcome
  | finished (t : ℚ)
  | timeoutExc
  | puffing (clsName msg : String) (t : ℚ)
  | exc (clsName msg : String) (t : ℚ)
  | hangs
deriving Repr, DecidableEq

/-- Events of a pipeline run delivered to `execute` unchanged, as they are
when no alarm is armed: a normal completion, a `PuffingError` or any other
exception arrives as raised, and a divergent run never returns. -/
def deliver (ev : RunEvent) : RaceOutcome :=
  match ev with
  | .completes d => .finished d
  | .puffingError c m t => .puffing c m t
  | .otherError c m t => .exc c m t
  | .diverges => .hangs

/-- Semantics of `time_limit(seconds)` wrapped around one pipeline run.

On non-Windows platforms `time_limit` installs a SIGALRM handler raising
`TimeoutException` and calls `signal.alarm(seconds)`.  `signal.alarm(0)`
schedules no alarm (it only cancels a pending one), so with `seconds = 0`
the run's events are delivered unchanged, exactly as on Windows.  With a
positive `seconds`, an event of the run that fires strictly before the alarm
is delivered as is; otherwise the alarm fires at `seconds` and
`TimeoutException` is raised inside the running code (a failure occurring at
or after the deadline is superseded by the timeout).

On Windows the context manager just yields: no alarm is armed, every event of
the run is delivered unchanged, and a divergent run never returns. -/
def runWithTimeLimit (plat : Platform) (seconds : ℕ) (ev : RunEvent) :
    RaceOutcome :=
  match plat with
  | .posix =>
    if seconds = 0 then deliver ev
    else
      match ev with
      | .completes d =>
          if d < (seconds : ℚ) then .finished d else .timeoutExc
      | .puffingError c m t =>
          if t < (seconds : ℚ) then .puffing c m t else .timeoutExc
      | .otherError c m t =>
          if t < (seconds : ℚ) then .exc c m t else .timeoutExc
      | .diverges => .timeoutExc
  | .win32 => deliver ev

/-- The dictionary returned by `PuffingExecutor.execute`, field for field. -/
structure ExecResult where
  success : Bool
  output : Option String
  error : Option String
  error_type : Option String
  traceback : Option String
  execution_time : ℚ
deriving Repr, DecidableEq

/-- Python's `round(x, 4)` (the claims only rely on sign and magnitude, so the
half-way tie-break is immaterial; we use the integer-valued `round`). -/
def round4 (q : ℚ) : ℚ := (round (q * 10000) : ℚ) / 10000

/-- Python's `output or fallback` for strings: the empty string is falsy. -/
def pyOr (s fallback : String) : String := if s = "" then fallback else s

/-- Model of `traceback.format_exc()` for an exception of class `cls` with message
`msg`: some non-empty diagnostic text mentioning both. -/
def formatExc (cls msg : String) : String :=
  "Traceback (most recent call last):\n  ...\n" ++ cls ++ ": " ++ msg

/-- Embedding of `PuffingExecutor.execute(code, timeout)` of `backend/services.py`.

`written` is everything the program wrote to the sink (`captured_output`)
before its terminal event; `ev` is the pipeline's behaviour on the source.
The result is `none` exactly when the call never returns (Windows, divergent
run); every returning path produces the dictionary the corresponding branch
of the source builds.  Elapsed time at each return point is the time of the
delivered event (the alarm fires at `timeout` seconds). -/
def execute (plat : Platform) (timeout : ℕ) (written : String)
    (ev : RunEvent) : Option ExecResult :=
  match runWithTimeLimit plat timeout ev with
  | .finished t =>
      some { success := true
             output := some (pyOr written "Program executed successfully!")
             error := none
             error_type := none
             traceback := none
             execution_time := round4 t }
  | .timeoutExc =>
      some { success := false
             output := none
             error := some ("Execution timed out after " ++ toString timeout
               ++ " seconds")
             error_type := some "TimeoutError"
             traceback := none
             execution_time := round4 (timeout : ℚ) }
  | .puffing c m t =>
      some { success := false
             output := none
             error := some m
             error_type := some c
             traceback := some (formatExc c m)
             execution_time := round4 t }
  | .exc c m t =>
      some { success := false
             output := none
             error := some ("Unexpected error: " ++ m)
             error_type := some c
             traceback := some (formatExc c m)
             execution_time := round4 t }
  | .hangs => none

/-! ## Output-redirection state (`sys.stdout` bookkeeping of `execute`)

Sink targets are numbered: `0` is the process's real standard output, and
each `StringIO()` allocated by a call gets a fresh positive id. -/

/-- The process state `execute` touches besides its return value: which
target `sys.stdout` currently points at, and the next fresh sink id. -/
structure StdoutState where
  stdout : ℕ
  nextId : ℕ
deriving Repr, DecidableEq

/-- Embedding of `PuffingExecutor.execute` with its `sys.stdout` manipulation made
explicit: `old_stdout = sys.stdout`, then `sys.stdout = captured_output`
(a fresh sink), and in the `finally` clause of every returning branch
`sys.stdout = old_stdout`.  Returns `none` when the call never returns
(then the `finally` clause never runs and the redirection stays in place,
but no subsequent state is observable from this call). -/
def executeS (plat : Platform) (timeout : ℕ) (written : String)
    (ev : RunEvent) (σ : StdoutState) : Option (ExecResult × StdoutState) :=
  let old_stdout := σ.stdout
  let σ₁ : StdoutState := { stdout := σ.nextId, nextId := σ.nextId + 1 }
  match execute plat timeout written ev with
  | some r => some (r, { σ₁ with stdout := old_stdout })
  | none => none

/-! ## `validate_syntax` -/

/-- A token as produced by the black-box lexer: `ttype` stands for the
`str()` of the token's type object, `value` for its value. -/
structure RawToken where
  ttype : String
  value : String
deriving Repr, DecidableEq

/-- Behaviour of `Lexer(code).tokenize()` followed by
`Parser(tokens).parse()` on a given source: both succeed yielding the
lexer's token sequence, or one of them raises a `PuffingError`, or one of
them raises some other exception.  No `run` step appears: `validate_syntax`
never executes the program. -/
inductive SyntaxOutcome
  | success (tokens : List RawToken)
  | puffingError (msg : String)
  | unexpected (msg : String)
deriving Repr, DecidableEq

/-- Embedding of `PuffingExecutor.validate_syntax(code)` of `backend/services.py`:
returns `(is_valid, error_message, tokens)` where on success the tokens are
serialized as `{"type": str(token.type), "value": token.value}` pairs by a
list comprehension over the lexer's token sequence. -/
def validate_syntax (out : SyntaxOutcome) :
    Bool × Option String × Option (List (String × String)) :=
  match out with
  | .success tokens =>
      (true, none, some (tokens.map fun tok => (tok.ttype, tok.value)))
  | .puffingError m => (false, some m, none)
  | .unexpected m => (false, some ("Unexpected error: " ++ m), none)

/-! ## Two interleaved calls to `execute`

`sys.stdout` is a single process-wide variable; `execute` swaps it in place.
We model two concurrent calls A (sink id 1) and B (sink id 2) whose four
observable steps each — save-and-redirect, the program's write, reading the
call's own sink, restore — interleave in some order that respects each
call's program order. -/

/-- Process-wide state shared by two in-flight calls: the current
`sys.stdout` target (0 = real stdout, 1 = call A's sink, 2 = call B's sink),
the two sinks' contents, each call's saved `old_stdout`, and each call's
output as read from its own sink. -/
structure TwoCallState where
  stdout : ℕ
  sinkA : String
  sinkB : String
  savedA : ℕ
  savedB : ℕ
  resA : Option String
  resB : Option String
deriving Repr, DecidableEq

/-- The initial process state: `sys.stdout` is the real stdout, both sinks
empty, nothing read yet. -/
def initTwoCall : TwoCallState :=
  { stdout := 0, sinkA := "", sinkB := "", savedA := 0, savedB := 0
    resA := none, resB := none }

/-- A `print` by the running program appends to whatever sink the
process-wide `sys.stdout` currently designates (writes to the real stdout
leave both sinks unchanged). -/
def writeOut (σ : TwoCallState) (s : String) : TwoCallState :=
  if σ.stdout = 1 then { σ with sinkA := σ.sinkA ++ s }
  else if σ.stdout = 2 then { σ with sinkB := σ.sinkB ++ s }
  else σ

/-- The four steps of one `execute` call that touch shared state, in their
program order inside the call: `acquire` is `old_stdout = sys.stdout;
sys.stdout = captured_output`, `emit` is the program's write, `readOut` is
`captured_output.getvalue()` (the call's OWN sink), `restore` is the
`finally` clause `sys.stdout = old_stdout`. -/
inductive CallStep
  | acquire
  | emit
  | readOut
  | restore
deriving Repr, DecidableEq

/-- Which of the two interleaved calls performs a step. -/
inductive Caller
  | A
  | B
deriving Repr, DecidableEq

/-- Effect of one step of one call on the shared state.  `markerA` and
`markerB` are the unique strings the two programs print. -/
def twoCallStep (markerA markerB : String) (σ : TwoCallState) :
    Caller × CallStep → TwoCallState
  | (.A, .acquire) => { σ with savedA := σ.stdout, stdout := 1 }
  | (.A, .emit) => writeOut σ markerA
  | (.A, .readOut) => { σ with resA := some σ.sinkA }
  | (.A, .restore) => { σ with stdout := σ.savedA }
  | (.B, .acquire) => { σ with savedB := σ.stdout, stdout := 2 }
  | (.B, .emit) => writeOut σ markerB
  | (.B, .readOut) => { σ with resB := some σ.sinkB }
  | (.B, .restore) => { σ with stdout := σ.savedB }

/-- Run an interleaving (a schedule of steps) from the initial state. -/
def runSchedule (markerA markerB : String)
    (sched : List (Caller × CallStep)) : TwoCallState :=
  sched.foldl (twoCallStep markerA markerB) initTwoCall

/-- A schedule in which call B acquires the sink between call A's
acquisition and call A's write — a legal interleaving of the two calls,
each of whose steps stay in program order. -/
def overlapSchedule : List (Caller × CallStep) :=
  [(.A, .acquire), (.B, .acquire), (.A, .emit), (.B, .emit),
   (.A, .readOut), (.B, .readOut), (.A, .restore), (.B, .restore)]

/-! ## The `/execute` endpoint's call into the harness

`backend/app.py` builds the harness call from a `CodeRequest`; modelled here
are the Pydantic model's field set, the attribute access
`request.input_values`, and Python's positional-argument binding for the
call `executor.execute(request.code, request.timeout, request.input_values
or [])`. -/

/-- The fields declared by the Pydantic model `CodeRequest` in
`backend/models.py`: `code` and `timeout` only. -/
def codeRequestFields : List String := ["code", "timeout"]

/-- Attribute access on a Pydantic model succeeds exactly for declared
fields; otherwise it raises `AttributeError`. -/
def hasAttr (fields : List String) (attrName : String) : Bool :=
  fields.contains attrName

/-- The parameters of `PuffingExecutor.execute` in `backend/services.py`:
`(code: str, timeout: int = 5)`. -/
def executeParams : List String := ["code", "timeout"]

/-- Number of `execute` parameters that carry a default value (`timeout`). -/
def executeDefaults : ℕ := 1

/-- Python's check for a call with `args` positional arguments against a
function with the given parameters and trailing defaults: the call raises
`TypeError` unless the required parameters are covered and no extra
positional argument is passed. -/
def posCallOk (params : List String) (defaults args : ℕ) : Bool :=
  decide (params.length - defaults ≤ args) && decide (args ≤ params.length)

/-- The `/execute` handler's harness invocation, step by step: it first
evaluates `request.input_values` (an attribute access on `CodeRequest`) and
then calls `execute` with three positional arguments.  Returns `false` when
either step raises (`AttributeError` or `TypeError`) — in `app.py` any such
exception is caught by the handler's `except Exception` and turned into an
HTTP 500, so the harness is never reached. -/
def appExecuteCallReachesHarness : Bool :=
  hasAttr codeRequestFields "input_values"
    && posCallOk executeParams executeDefaults 3

/-! ## Derived predicates on run behaviours -/

/-- The run step exceeds the budget: the pipeline either never terminates or
its terminal event fires at or after `timeout` seconds. -/
def runExceeds (ev : RunEvent) (timeout : ℕ) : Prop :=
  ev = .diverges ∨ (timeout : ℚ) ≤ ev.time

/-- The pipeline raised an exception that was delivered to `execute` (a
`PuffingError` or any other exception) rather than completing, timing out at
the harness's deadline, or hanging. -/
def raisedNonTimeout (plat : Platform) (timeout : ℕ) (ev : RunEvent) : Bool :=
  match runWithTimeLimit plat timeout ev with
  | .puffing _ _ _ => true
  | .exc _ _ _ => true
  | _ => false

/-- The C4 result-shape invariant: exactly one of the success/failure
branches of an execution result is populated (success carries an output and
no error fields; failure carries error message and kind and no output), and
the elapsed time is present and nonnegative. -/
def branchInvariant (r : ExecResult) : Prop :=
  (r.success = true →
      r.output.isSome = true ∧ r.error = none ∧ r.error_type = none ∧
      r.traceback = none) ∧
  (r.success = false →
      r.output = none ∧ r.error.isSome = true ∧ r.error_type.isSome = true) ∧
  0 ≤ r.execution_time

/-! ## Helper lemmas -/

theorem round4_nonneg {q : ℚ} (h : 0 ≤ q) : 0 ≤ round4 q := by
  unfold round4
  apply div_nonneg _ (by norm_num)
  have h0 : (0 : ℤ) ≤ round (q * 10000) := by
    rw [round_eq]
    exact Int.floor_nonneg.mpr (by linarith)
  exact_mod_cast h0

/-! ## Claim theorems -/

/-- C7: for every source string, `validate_syntax` returns, on successful
tokenize and parse, `(true, null, tokens)` with the tokens serialized as
`{type, value}` pairs in the lexer's original order (the serialization is a
`map` over the lexer's sequence); on a language-level failure,
`(false, message, null)`; and on any other unexpected failure,
`(false, "Unexpected error: " + message, null)`.  It never runs the program:
its behaviour is a function of the tokenize/parse outcome alone. -/
theorem validate_syntax_shape (tokens : List RawToken) (m : String) :
    validate_syntax (.success tokens) =
      (true, none, some (tokens.map fun tok => (tok.ttype, tok.value))) ∧
    validate_syntax (.puffingError m) = (false, some m, none) ∧
    validate_syntax (.unexpected m) =
      (false, some ("Unexpected error: " ++ m), none) :=
  ⟨rfl, rfl, rfl⟩

/-- C9 (code bug): the `/execute` handler in `backend/app.py` invokes the
harness as `executor.execute(request.code, request.timeout,
request.input_values or [])`, but `CodeRequest` declares no `input_values`
field (the attribute access raises `AttributeError`) and
`PuffingExecutor.execute` has only the two parameters `(code, timeout)` (a
three-argument call raises `TypeError`); either way the handler's call never
reaches the harness with input values. -/
theorem app_execute_call_fails :
    hasAttr codeRequestFields "input_values" = false ∧
    posCallOk executeParams executeDefaults 3 = false ∧
    appExecuteCallReachesHarness = false := by
  decide

/-- C3 (code bug): under the legal interleaving `overlapSchedule` of two
concurrent `execute` calls printing markers `"A\n"` and `"B\n"`, call A's
marker is written into call B's sink, so call B's result contains call A's
output and call A's result lost it — the process-wide `sys.stdout` swap is
not call-scoped. -/
theorem interleaved_calls_contaminate :
    (runSchedule "A\n" "B\n" overlapSchedule).resA = some "" ∧
    (runSchedule "A\n" "B\n" overlapSchedule).resB = some "A\nB\n" :=
  ⟨rfl, rfl⟩

/-- C1 counterexample: on Windows, `time_limit` arms no alarm, so `execute`
on a source whose run never terminates never returns at all — refuting "for
every source string and timeout value, execute returns a well-formed
ExecutionResult". -/
theorem execute_can_hang_on_windows :
    execute .win32 5 "" .diverges = none :=
  rfl

/-- C1 (amended): on non-Windows platforms, for every timeout of at least 1
second, `execute` returns a well-formed `ExecResult` for every output and
pipeline behaviour — every failure mode, `TimeoutException`, `PuffingError`
or any other exception, is caught and translated, and nothing propagates
past the harness; on any platform and any timeout the same holds for every
pipeline behaviour that terminates or raises.  (With timeout 0,
`signal.alarm(0)` arms nothing, so POSIX too hangs on a divergent run.) -/
theorem execute_total_no_fault :
    (∀ (timeout : ℕ) (w : String) (ev : RunEvent), 1 ≤ timeout →
        (execute .posix timeout w ev).isSome = true) ∧
    (∀ (plat : Platform) (timeout : ℕ) (w : String) (ev : RunEvent),
        ev ≠ .diverges → (execute plat timeout w ev).isSome = true) := by
  constructor
  · intro timeout w ev h1
    have h0 : ¬timeout = 0 := by omega
    cases ev with
    | completes d =>
        by_cases hd : d < (timeout : ℚ) <;>
          simp [execute, runWithTimeLimit, h0, hd]
    | puffingError c m t =>
        by_cases hd : t < (timeout : ℚ) <;>
          simp [execute, runWithTimeLimit, h0, hd]
    | otherError c m t =>
        by_cases hd : t < (timeout : ℚ) <;>
          simp [execute, runWithTimeLimit, h0, hd]
    | diverges => simp [execute, runWithTimeLimit, h0]
  · intro plat timeout w ev hev
    cases plat
    · cases ev with
      | completes d => simp [execute, runWithTimeLimit, deliver]
      | puffingError c m t => simp [execute, runWithTimeLimit, deliver]
      | otherError c m t => simp [execute, runWithTimeLimit, deliver]
      | diverges => exact absurd rfl hev
    · cases ev with
      | completes d =>
          by_cases h0 : timeout = 0
          · simp [execute, runWithTimeLimit, deliver, h0]
          · by_cases hd : d < (timeout : ℚ) <;>
              simp [execute, runWithTimeLimit, h0, hd]
      | puffingError c m t =>
          by_cases h0 : timeout = 0
          · simp [execute, runWithTimeLimit, deliver, h0]
          · by_cases hd : t < (timeout : ℚ) <;>
              simp [execute, runWithTimeLimit, h0, hd]
      | otherError c m t =>
          by_cases h0 : timeout = 0
          · simp [execute, runWithTimeLimit, deliver, h0]
          · by_cases hd : t < (timeout : ℚ) <;>
              simp [execute, runWithTimeLimit, h0, hd]
      | diverges => exact absurd rfl hev

/-- C1 witness: the amended theorem applied at a divergent run on POSIX with
a 5-second budget and a normally completing run on Windows. -/
theorem execute_total_no_fault_witness :
    1 ≤ 5 ∧
    (execute .posix 5 "" .diverges).isSome = true ∧
    (execute .win32 5 "" (.completes 1)).isSome = true :=
  ⟨by norm_num,
   execute_total_no_fault.1 5 "" .diverges (by norm_num),
   execute_total_no_fault.2 .win32 5 "" (.completes 1) (by simp)⟩

/-- C2 counterexample: on Windows, a program that runs past the configured
1-second timeout (here: forever) never produces a failure result with
errorKind "TimeoutError" — `execute` never returns — refuting "on every
platform". -/
theorem execute_no_timeout_on_windows :
    execute .win32 1 "" .diverges = none :=
  rfl

/-- C2 (amended): on non-Windows platforms, for every timeout of at least 1
second (so that `signal.alarm` actually arms), every program whose run step
runs past `timeoutSeconds` (terminal event at or after the deadline, or no
terminal event at all) makes `execute` return a failure result with
errorKind "TimeoutError", a message naming the configured timeout, no
traceback, and elapsed time equal to the deadline at which the alarm fired;
on Windows, or with timeout 0, no timeout is enforced at all. -/
theorem execute_timeout_posix (timeout : ℕ) (w : String) (ev : RunEvent)
    (h1 : 1 ≤ timeout) (h : runExceeds ev timeout) :
    execute .posix timeout w ev =
      some { success := false
             output := none
             error := some ("Execution timed out after " ++ toString timeout
               ++ " seconds")
             error_type := some "TimeoutError"
             traceback := none
             execution_time := round4 (timeout : ℚ) } := by
  have h0 : ¬timeout = 0 := by omega
  cases ev with
  | diverges => simp [execute, runWithTimeLimit, h0]
  | completes d =>
      rcases h with h | h
      · exact absurd h (by simp)
      · simp only [RunEvent.time] at h
        simp [execute, runWithTimeLimit, h0, not_lt.mpr h]
  | puffingError c m t =>
      rcases h with h | h
      · exact absurd h (by simp)
      · simp only [RunEvent.time] at h
        simp [execute, runWithTimeLimit, h0, not_lt.mpr h]
  | otherError c m t =>
      rcases h with h | h
      · exact absurd h (by simp)
      · simp only [RunEvent.time] at h
        simp [execute, runWithTimeLimit, h0, not_lt.mpr h]

/-- C2 witness: the amended theorem applied to a divergent run with a
1-second budget. -/
theorem execute_timeout_posix_witness :
    execute .posix 1 "" .diverges =
      some { success := false
             output := none
             error := some "Execution timed out after 1 seconds"
             error_type := some "TimeoutError"
             traceback := none
             execution_time := round4 (1 : ℚ) } :=
  execute_timeout_posix 1 "" .diverges (by norm_num) (Or.inl rfl)

/-- C5: for every run that completes within budget, `execute` returns
success; when the program wrote nothing, the output is the fixed placeholder
`"Program executed successfully!"` (never the empty string), and when the
program did write output, that output is returned unchanged. -/
theorem execute_output_placeholder (plat : Platform) (timeout : ℕ)
    (d : ℚ) (w : String) (hd : d < (timeout : ℚ)) :
    (execute plat timeout "" (.completes d)).map ExecResult.success =
      some true ∧
    (execute plat timeout "" (.completes d)).map ExecResult.output =
      some (some "Program executed successfully!") ∧
    (w ≠ "" →
      (execute plat timeout w (.completes d)).map ExecResult.output =
        some (some w)) := by
  have hfin : ∀ w2 : String,
      execute plat timeout w2 (.completes d) =
        some { success := true
               output := some (pyOr w2 "Program executed successfully!")
               error := none
               error_type := none
               traceback := none
               execution_time := round4 d } := by
    intro w2
    cases plat with
    | win32 => simp [execute, runWithTimeLimit, deliver]
    | posix =>
        by_cases h0 : timeout = 0
        · simp [execute, runWithTimeLimit, deliver, h0]
        · simp [execute, runWithTimeLimit, h0, hd]
  refine ⟨?_, ?_, fun hw => ?_⟩
  · rw [hfin ""]; rfl
  · rw [hfin ""]; simp [pyOr]
  · rw [hfin w]; simp [pyOr, hw]

/-- C5 witness: the theorem applied on POSIX with a 5-second budget to a
run completing at 1 second, for the empty output and the output "hi". -/
theorem execute_output_placeholder_witness :
    (execute .posix 5 "" (.completes 1)).map ExecResult.success =
      some true ∧
    (execute .posix 5 "" (.completes 1)).map ExecResult.output =
      some (some "Program executed successfully!") ∧
    ("hi" ≠ "" →
      (execute .posix 5 "hi" (.completes 1)).map ExecResult.output =
        some (some "hi")) :=
  execute_output_placeholder .posix 5 1 "hi" (by norm_num)

/-- C6: on every exit path of `execute` — normal completion, language-level
error, timeout, or unexpected failure — the `finally` clause restores the
output target that was active before the call, so the redirection state any
subsequent call observes is unchanged. -/
theorem executeS_restores_stdout (plat : Platform) (timeout : ℕ)
    (w : String) (ev : RunEvent) (σ : StdoutState)
    (r : ExecResult) (σ' : StdoutState)
    (h : executeS plat timeout w ev σ = some (r, σ')) :
    σ'.stdout = σ.stdout := by
  unfold executeS at h
  cases hx : execute plat timeout w ev with
  | none => rw [hx] at h; exact absurd h (by simp)
  | some res =>
      rw [hx] at h
      simp only [Option.some.injEq, Prod.mk.injEq] at h
      rw [← h.2]

/-- C6 witness: the theorem applied to a run raising a `PuffingError`,
starting from a state whose active output target is 7. -/
theorem executeS_restores_stdout_witness :
    ({ stdout := 7, nextId := 9 } : StdoutState).stdout = 7 ∧
    (executeS .posix 5 "" (.puffingError "LexerError" "bad token" 0)
        { stdout := 7, nextId := 9 }).map (fun p => p.2.stdout) =
      some 7 := by
  refine ⟨rfl, ?_⟩
  have h :
      executeS .posix 5 "" (.puffingError "LexerError" "bad token" 0)
          { stdout := 7, nextId := 9 } =
        some ({ success := false
                output := none
                error := some "bad token"
                error_type := some "LexerError"
                traceback := some (formatExc "LexerError" "bad token")
                execution_time := round4 0 },
              { stdout := 7, nextId := 10 }) := by
    simp [executeS, execute, runWithTimeLimit]
  have h7 :
      ({ stdout := 7, nextId := 10 } : StdoutState).stdout =
        ({ stdout := 7, nextId := 9 } : StdoutState).stdout :=
    executeS_restores_stdout .posix 5 ""
      (.puffingError "LexerError" "bad token" 0)
      { stdout := 7, nextId := 9 } _ _ h
  rw [h]
  exact congrArg some h7

/-- C8 counterexample: two unexpected, non-language, non-timeout failures of
different exception classes are reported with different `error_type` values
(the exception's class name), so the errorKind is not a single generic kind;
moreover the `errorMessage` is "Unexpected error: " prepended to the
stringified failure, not the stringified failure itself. -/
theorem unexpected_error_kind_not_generic :
    (execute .posix 5 "" (.otherError "ValueError" "boom" 0)).map
        ExecResult.error_type = some (some "ValueError") ∧
    (execute .posix 5 "" (.otherError "KeyError" "oops" 0)).map
        ExecResult.error_type = some (some "KeyError") ∧
    (some "ValueError" : Option String) ≠ some "KeyError" ∧
    (execute .posix 5 "" (.otherError "ValueError" "boom" 0)).map
        ExecResult.error = some (some "Unexpected error: boom") ∧
    some "Unexpected error: boom" ≠ some "boom" := by
  refine ⟨?_, ?_, by decide, ?_, by decide⟩ <;>
    simp [execute, runWithTimeLimit]

/-- C8 (amended): when `execute` encounters a failure that is neither a
`PuffingError` nor the harness's timeout, it returns a failure result whose
`error_type` is the class name of the specific exception (varying with the
exception, not one fixed generic kind), whose `error` is
`"Unexpected error: "` followed by the stringified failure, and which
carries a diagnostic trace. -/
theorem execute_unexpected_branch (plat : Platform) (timeout : ℕ)
    (w c m : String) (t : ℚ) (ht : t < (timeout : ℚ)) :
    execute plat timeout w (.otherError c m t) =
      some { success := false
             output := none
             error := some ("Unexpected error: " ++ m)
             error_type := some c
             traceback := some (formatExc c m)
             execution_time := round4 t } := by
  cases plat with
  | win32 => simp [execute, runWithTimeLimit, deliver]
  | posix =>
      by_cases h0 : timeout = 0
      · simp [execute, runWithTimeLimit, deliver, h0]
      · simp [execute, runWithTimeLimit, h0, ht]

/-- C8 witness: the amended theorem applied to a `ValueError` raised at
time 0 under a 5-second budget on POSIX. -/
theorem execute_unexpected_branch_witness :
    execute .posix 5 "" (.otherError "ValueError" "boom" 0) =
      some { success := false
             output := none
             error := some ("Unexpected error: " ++ "boom")
             error_type := some "ValueError"
             traceback := some (formatExc "ValueError" "boom")
             execution_time := round4 0 } :=
  execute_unexpected_branch .posix 5 "" "ValueError" "boom" 0 (by norm_num)

/-- C4: every result returned by `execute` (from a run whose event time is
nonnegative, as wall-clock times are) populates exactly one of its two
branches — on success the output is present and the error fields absent, on
failure the output is absent and error message and kind present — and its
`execution_time` is present and ≥ 0. -/
theorem execute_result_invariant (plat : Platform) (timeout : ℕ)
    (w : String) (ev : RunEvent) (r : ExecResult)
    (ht : 0 ≤ ev.time) (hr : execute plat timeout w ev = some r) :
    branchInvariant r := by
  have htq : (0 : ℚ) ≤ round4 (timeout : ℚ) := round4_nonneg (by positivity)
  cases plat with
  | win32 =>
    cases ev with
    | completes d =>
        simp only [RunEvent.time] at ht
        simp only [execute, runWithTimeLimit, deliver,
          Option.some.injEq] at hr
        subst hr
        exact ⟨fun _ => ⟨rfl, rfl, rfl, rfl⟩, fun hf => by simp at hf,
          round4_nonneg ht⟩
    | puffingError c m t =>
        simp only [RunEvent.time] at ht
        simp only [execute, runWithTimeLimit, deliver,
          Option.some.injEq] at hr
        subst hr
        exact ⟨fun hs => by simp at hs, fun _ => ⟨rfl, rfl, rfl⟩,
          round4_nonneg ht⟩
    | otherError c m t =>
        simp only [RunEvent.time] at ht
        simp only [execute, runWithTimeLimit, deliver,
          Option.some.injEq] at hr
        subst hr
        exact ⟨fun hs => by simp at hs, fun _ => ⟨rfl, rfl, rfl⟩,
          round4_nonneg ht⟩
    | diverges =>
        simp only [execute, runWithTimeLimit, deliver] at hr
        exact absurd hr (by simp)
  | posix =>
    cases ev with
    | completes d =>
        simp only [RunEvent.time] at ht
        by_cases h0 : timeout = 0
        · simp only [execute, runWithTimeLimit, deliver, h0, if_pos,
            Option.some.injEq] at hr
          subst hr
          exact ⟨fun _ => ⟨rfl, rfl, rfl, rfl⟩, fun hf => by simp at hf,
            round4_nonneg ht⟩
        · by_cases hd : d < (timeout : ℚ)
          · simp only [execute, runWithTimeLimit, if_neg h0, if_pos hd,
              Option.some.injEq] at hr
            subst hr
            exact ⟨fun _ => ⟨rfl, rfl, rfl, rfl⟩, fun hf => by simp at hf,
              round4_nonneg ht⟩
          · simp only [execute, runWithTimeLimit, if_neg h0, if_neg hd,
              Option.some.injEq] at hr
            subst hr
            exact ⟨fun hs => by simp at hs, fun _ => ⟨rfl, rfl, rfl⟩, htq⟩
    | puffingError c m t =>
        simp only [RunEvent.time] at ht
        by_cases h0 : timeout = 0
        · simp only [execute, runWithTimeLimit, deliver, h0, if_pos,
            Option.some.injEq] at hr
          subst hr
          exact ⟨fun hs => by simp at hs, fun _ => ⟨rfl, rfl, rfl⟩,
            round4_nonneg ht⟩
        · by_cases hd : t < (timeout : ℚ)
          · simp only [execute, runWithTimeLimit, if_neg h0, if_pos hd,
              Option.some.injEq] at hr
            subst hr
            exact ⟨fun hs => by simp at hs, fun _ => ⟨rfl, rfl, rfl⟩,
              round4_nonneg ht⟩
          · simp only [execute, runWithTimeLimit, if_neg h0, if_neg hd,
              Option.some.injEq] at hr
            subst hr
            exact ⟨fun hs => by simp at hs, fun _ => ⟨rfl, rfl, rfl⟩, htq⟩
    | otherError c m t =>
        simp only [RunEvent.time] at ht
        by_cases h0 : timeout = 0
        · simp only [execute, runWithTimeLimit, deliver, h0, if_pos,
            Option.some.injEq] at hr
          subst hr
          exact ⟨fun hs => by simp at hs, fun _ => ⟨rfl, rfl, rfl⟩,
            round4_nonneg ht⟩
        · by_cases hd : t < (timeout : ℚ)
          · simp only [execute, runWithTimeLimit, if_neg h0, if_pos hd,
              Option.some.injEq] at hr
            subst hr
            exact ⟨fun hs => by simp at hs, fun _ => ⟨rfl, rfl, rfl⟩,
              round4_nonneg ht⟩
          · simp only [execute, runWithTimeLimit, if_neg h0, if_neg hd,
              Option.some.injEq] at hr
            subst hr
            exact ⟨fun hs => by simp at hs, fun _ => ⟨rfl, rfl, rfl⟩, htq⟩
    | diverges =>
        by_cases h0 : timeout = 0
        · simp only [execute, runWithTimeLimit, deliver, h0, if_pos] at hr
          exact absurd hr (by simp)
        · simp only [execute, runWithTimeLimit, if_neg h0,
            Option.some.injEq] at hr
          subst hr
          exact ⟨fun hs => by simp at hs, fun _ => ⟨rfl, rfl, rfl⟩, htq⟩

/-- C4 witness: the theorem applied to a run completing at 1 second under a
5-second budget on POSIX. -/
theorem execute_result_invariant_witness :
    branchInvariant
      { success := true
        output := some "Program executed successfully!"
        error := none
        error_type := none
        traceback := none
        execution_time := round4 1 } :=
  execute_result_invariant .posix 5 "" (.completes 1) _
    (by simp [RunEvent.time])
    (by simp [execute, runWithTimeLimit, pyOr])

/-- C10 counterexample: an unexpected failure whose exception class happens
to be named `TimeoutError` (such as Python's builtin) is caught by the
catch-all branch: the result fails with `error_type = "TimeoutError"` AND a
non-null traceback, refuting "traceback is null whenever errorKind is
TimeoutError". -/
theorem traceback_with_timeout_kind :
    (execute .posix 5 "" (.otherError "TimeoutError" "request timed out" 0)).map
        ExecResult.success = some false ∧
    (execute .posix 5 "" (.otherError "TimeoutError" "request timed out" 0)).map
        ExecResult.error_type = some (some "TimeoutError") ∧
    (execute .posix 5 "" (.otherError "TimeoutError" "request timed out" 0)).map
        ExecResult.traceback =
      some (some (formatExc "TimeoutError" "request timed out")) := by
  refine ⟨?_, ?_, ?_⟩ <;>
    simp [execute, runWithTimeLimit]

/-- C10 (amended): for every returning call of `execute`, the `traceback`
field is non-null iff the pipeline raised an exception that was delivered to
the harness (a `PuffingError` or any other exception): it is always null on
success and on the harness's own deadline expiry, and always non-null on the
language-error and catch-all branches — even when the caught exception's
class name is itself `"TimeoutError"`. -/
theorem traceback_iff_raised (plat : Platform) (timeout : ℕ) (w : String)
    (ev : RunEvent) (r : ExecResult)
    (h : execute plat timeout w ev = some r) :
    r.traceback.isSome = raisedNonTimeout plat timeout ev := by
  unfold execute at h
  unfold raisedNonTimeout
  cases hout : runWithTimeLimit plat timeout ev <;> rw [hout] at h <;>
    simp only [Option.some.injEq] at h <;> first
  | (rw [← h]; rfl)
  | exact absurd h (by simp)

/-- C10 witness: the amended theorem applied to a run raising a
`PuffingError` within budget. -/
theorem traceback_iff_raised_witness :
    ({ success := false
       output := none
       error := some "bad token"
       error_type := some "LexerError"
       traceback := some (formatExc "LexerError" "bad token")
       execution_time := round4 0 } : ExecResult).traceback.isSome =
      raisedNonTimeout .posix 5 (.puffingError "LexerError" "bad token" 0) :=
  traceback_iff_raised .posix 5 "" (.puffingError "LexerError" "bad token" 0)
    _ (by simp [execute, runWithTimeLimit])

end Puffing
